import Mathlib

/-!
Shallow embedding of the scada-storage-tank-backend publisher and alert
consumer. Numeric tank levels are modelled as rationals; the JavaScript
`toFixed(2)` rounding is modelled as round-half-up to two decimal places;
wall-clock timestamps are passed as explicit string inputs; the MQTT
publish and file-log effects are returned as data in the result records.
-/

namespace Scada

/-- One sensor reading, as in the tank objects of the request payload:
id, name, numeric fill level, last-update timestamp. -/
structure Tank where
  id : String
  name : String
  level : ℚ
  lastUpdated : String
deriving Repr, DecidableEq

/-- One room (location): id plus its ordered list of tanks, as in the
room objects of the request payload. -/
structure Room where
  id : String
  tanks : List Tank
deriving Repr, DecidableEq

/-- The request body of POST /publish. The rooms collection is optional
so that a structurally invalid snapshot (missing rooms) can be passed to
the handler, as in untyped JSON. -/
structure RequestBody where
  timestamp : String
  rooms : Option (List Room)
deriving Repr, DecidableEq

/-- Constant LOW_LEVEL_THRESHOLD from src/publisher.js line 78. -/
def LOW_LEVEL_THRESHOLD : ℚ := 25

/-- Constant HIGH_LEVEL_THRESHOLD from src/publisher.js line 79. -/
def HIGH_LEVEL_THRESHOLD : ℚ := 90

/-- Constant MQTT_TOPIC from src/publisher.js. -/
def MQTT_TOPIC : String := "tankscape/tanks"

/-- Constant MQTT_ALERT_TOPIC from src/publisher.js. -/
def MQTT_ALERT_TOPIC : String := "tankscape/alerts"

/-- Rounding to two decimal places, half away from zero on the
nonnegative values produced here: models `Number(x.toFixed(2))`. -/
def round2 (q : ℚ) : ℚ := (round (q * 100) : ℤ) / 100

/-- Per-tank detail record inside an alert, as built at
src/publisher.js lines 90 to 97. -/
structure TankAlert where
  id : String
  name : String
  level : ℚ
  lastUpdated : String
  threshold : ℚ
  deficit : ℚ
deriving Repr, DecidableEq

/-- Per-room entry of the alert summary, as built at
src/publisher.js lines 86 to 98. -/
structure RoomAlert where
  roomId : String
  totalTanks : Nat
  lowLevelTanks : Nat
  tanks : List TankAlert
deriving Repr, DecidableEq

/-- The details object of an alert, src/publisher.js lines 107 to 112. -/
structure AlertDetails where
  timestamp : String
  totalRooms : Nat
  totalTanks : Nat
  rooms : List RoomAlert
deriving Repr, DecidableEq

/-- The full alert payload, src/publisher.js lines 104 to 114. -/
structure AlertData where
  event : String
  timestamp : String
  details : AlertDetails
  mqttTopic : String
deriving Repr, DecidableEq

/-- The filter `room.tanks.filter(tank => tank.level <= LOW_LEVEL_THRESHOLD)`
of src/publisher.js line 83, with the threshold as a parameter. -/
def lowTanksOf (low : ℚ) (room : Room) : List Tank :=
  room.tanks.filter (fun tank => decide (tank.level ≤ low))

/-- The per-tank alert record of src/publisher.js lines 90 to 97:
threshold field is the low threshold, deficit is threshold minus level
rounded to two decimals. -/
def mkTankAlert (low : ℚ) (tank : Tank) : TankAlert :=
  { id := tank.id
    name := tank.name
    level := tank.level
    lastUpdated := tank.lastUpdated
    threshold := low
    deficit := round2 (low - tank.level) }

/-- The per-room entry pushed onto the accumulator at
src/publisher.js lines 86 to 98. -/
def mkRoomAlert (low : ℚ) (room : Room) : RoomAlert :=
  { roomId := room.id
    totalTanks := room.tanks.length
    lowLevelTanks := (lowTanksOf low room).length
    tanks := (lowTanksOf low room).map (mkTankAlert low) }

/-- The `rooms.reduce(...)` of src/publisher.js lines 82 to 101: fold over
the rooms, pushing a room entry onto the accumulator exactly when the room
has at least one low tank. -/
def lowLevelRoomsAcc (low : ℚ) (rooms : List Room) : List RoomAlert :=
  rooms.foldl
    (fun acc room =>
      if (lowTanksOf low room).length > 0 then acc ++ [mkRoomAlert low room]
      else acc)
    []

/-- The sum `rooms.reduce((sum, room) => sum + room.tanks.length, 0)` of
src/publisher.js line 110. -/
def totalTankCount (rooms : List Room) : Nat :=
  rooms.foldl (fun sum room => sum + room.tanks.length) 0

/-- The function checkTankLevels of src/publisher.js lines 81 to 119, with
the two threshold constants as explicit parameters and the wall-clock time
as the explicit input `now`; the returned option is the payload published
on the alerts channel and appended to the log (none when nothing was
published). The `high` parameter mirrors HIGH_LEVEL_THRESHOLD, which the
source defines but never reads. -/
def checkTankLevelsCfg (low high : ℚ) (now : String) (rooms : List Room) :
    Option AlertData :=
  let lowLevelTanks := lowLevelRoomsAcc low rooms
  if lowLevelTanks.length > 0 then
    some
      { event := "LOW_LEVEL_ALERT"
        timestamp := now
        details :=
          { timestamp := now
            totalRooms := rooms.length
            totalTanks := totalTankCount rooms
            rooms := lowLevelTanks }
        mqttTopic := MQTT_ALERT_TOPIC }
  else none

/-- checkTankLevels at the threshold constants of the source. -/
def checkTankLevels (now : String) (rooms : List Room) : Option AlertData :=
  checkTankLevelsCfg LOW_LEVEL_THRESHOLD HIGH_LEVEL_THRESHOLD now rooms

/-- Observable outcome of one POST /publish call: HTTP status and body,
the payload published on the raw topic (none when nothing was published),
and the payload published on the alerts topic. -/
structure HandlerResult where
  status : Nat
  responseBody : String
  rawPublished : Option RequestBody
  alertPublished : Option AlertData
deriving Repr, DecidableEq

/-- The low-level filter computed inside the handler at
src/publisher.js lines 138 to 144: rooms mapped to their low tanks only,
then rooms with no low tank dropped. -/
def lowLevelDataRooms (low : ℚ) (rooms : List Room) : List Room :=
  (rooms.map (fun room => { room with tanks := (lowTanksOf low room) })).filter
    (fun room => decide (room.tanks.length > 0))

/-- The handler of POST /publish, src/publisher.js lines 122 to 174, with
thresholds and wall-clock time explicit. Accessing `.rooms` on a body
without a rooms collection throws at line 129; the catch block answers 500
with a generic message and nothing has been published at that point.
Otherwise the raw body is published verbatim to MQTT_TOPIC, and
checkTankLevels runs only when the filtered rooms list is nonempty. -/
def publishHandlerCfg (low high : ℚ) (now : String) (body : RequestBody) :
    HandlerResult :=
  match body.rooms with
  | none =>
      { status := 500
        responseBody := "Failed to publish data"
        rawPublished := none
        alertPublished := none }
  | some rooms =>
      let alert :=
        if (lowLevelDataRooms low rooms).length > 0 then
          checkTankLevelsCfg low high now rooms
        else none
      { status := 200
        responseBody := "Data published successfully"
        rawPublished := some body
        alertPublished := alert }

/-- The handler at the threshold constants of the source. -/
def publishHandler (now : String) (body : RequestBody) : HandlerResult :=
  publishHandlerCfg LOW_LEVEL_THRESHOLD HIGH_LEVEL_THRESHOLD now body

/-- Outcome of the alert consumer for one message on the alerts channel,
src/unnamed/part_000: either the parsed payload was logged and forwarded,
or parsing failed and the raw payload was logged and the message skipped. -/
inductive ConsumerOutcome where
  | processed (data : AlertData) : ConsumerOutcome
  | parseFailureLogged (raw : String) : ConsumerOutcome
deriving Repr, DecidableEq

/-- The message callback of the alert consumer, src/unnamed/part_000
lines 50 to 57 and 145 to 153: the try block parses the message with the
JSON library, modelled by the parameter `parse`; on success the data is
processed, on failure the catch block logs the raw payload and the
handler returns normally. -/
def onMessage (parse : String → Option AlertData) (msg : String) :
    ConsumerOutcome :=
  match parse msg with
  | some data => ConsumerOutcome.processed data
  | none => ConsumerOutcome.parseFailureLogged msg

/-- The consumer over a stream of messages: each message is handled in
turn by the message callback; handling is total, so one malformed message
never stops the later ones from being handled. -/
def consumeAll (parse : String → Option AlertData) (msgs : List String) :
    List ConsumerOutcome :=
  msgs.map (onMessage parse)

/-- Erases every wall-clock timestamp field of an alert, keeping all
content derived from the snapshot. -/
def eraseTimes (a : AlertData) : AlertData :=
  { a with timestamp := "", details := { a.details with timestamp := "" } }

/- Characterization lemmas for the fold of src/publisher.js line 82. -/

theorem lowLevelRoomsAcc_go (low : ℚ) (rooms : List Room)
    (acc : List RoomAlert) :
    rooms.foldl
      (fun acc room =>
        if (lowTanksOf low room).length > 0 then acc ++ [mkRoomAlert low room]
        else acc)
      acc = acc ++ lowLevelRoomsAcc low rooms := by
  induction rooms generalizing acc with
  | nil => simp [lowLevelRoomsAcc]
  | cons room rest ih =>
      simp only [lowLevelRoomsAcc, List.foldl_cons]
      by_cases h : (lowTanksOf low room).length > 0
      · simp only [h, if_pos]
        rw [ih, ih (([] : List RoomAlert) ++ [mkRoomAlert low room])]
        simp
      · simp only [h, if_neg, not_false_iff]
        rw [ih, ih ([] : List RoomAlert)]
        simp

/-- The accumulator fold computes a filterMap: a room contributes its
entry exactly when it has at least one low tank. -/
theorem lowLevelRoomsAcc_eq_filterMap (low : ℚ) (rooms : List Room) :
    lowLevelRoomsAcc low rooms =
      rooms.filterMap
        (fun room =>
          if (lowTanksOf low room).length > 0 then some (mkRoomAlert low room)
          else none) := by
  induction rooms with
  | nil => rfl
  | cons room rest ih =>
      simp only [lowLevelRoomsAcc, List.foldl_cons, List.filterMap_cons]
      by_cases h : (lowTanksOf low room).length > 0
      · simp only [h, if_pos]
        rw [lowLevelRoomsAcc_go]
        simpa using congrArg (List.cons (mkRoomAlert low room)) ih
      · simp only [h, if_neg, not_false_iff]
        rw [lowLevelRoomsAcc_go]
        simpa using ih

/-- The accumulated room list is empty exactly when no room has a reading
at or below the threshold. -/
theorem lowLevelRoomsAcc_eq_nil_iff (low : ℚ) (rooms : List Room) :
    lowLevelRoomsAcc low rooms = [] ↔
      ∀ room ∈ rooms, ∀ tank ∈ room.tanks, ¬ tank.level ≤ low := by
  rw [lowLevelRoomsAcc_eq_filterMap]
  simp [List.filterMap_eq_nil_iff, lowTanksOf, Nat.pos_iff_ne_zero,
    List.length_eq_zero, List.filter_eq_nil_iff]

/-- The low-level rooms list computed inside the handler is nonempty
exactly when some room has a reading at or below the threshold. -/
theorem lowLevelDataRooms_length_pos_iff (low : ℚ) (rooms : List Room) :
    0 < (lowLevelDataRooms low rooms).length ↔
      ∃ room ∈ rooms, ∃ tank ∈ room.tanks, tank.level ≤ low := by
  rw [List.length_pos_iff_exists_mem]
  simp [lowLevelDataRooms, List.mem_filter, List.mem_map, lowTanksOf,
    Nat.pos_iff_ne_zero, List.length_eq_zero, List.filter_eq_nil_iff]

/-- Rooms recorded in a produced alert are exactly the accumulated
low-level room entries. -/
theorem details_rooms_of_eq_some (low high : ℚ) (now : String)
    (rooms : List Room) (a : AlertData)
    (h : checkTankLevelsCfg low high now rooms = some a) :
    a.details.rooms = lowLevelRoomsAcc low rooms := by
  unfold checkTankLevelsCfg at h
  dsimp only at h
  split at h
  · injection h with h
    subst h
    rfl
  · exact absurd h (by simp)

/-- The evaluator returns no alert exactly when the accumulated room list
is empty. -/
theorem checkTankLevelsCfg_eq_none_iff (low high : ℚ) (now : String)
    (rooms : List Room) :
    checkTankLevelsCfg low high now rooms = none ↔
      lowLevelRoomsAcc low rooms = [] := by
  unfold checkTankLevelsCfg
  dsimp only
  by_cases h : (lowLevelRoomsAcc low rooms).length > 0
  · rw [if_pos h]
    constructor
    · intro hc
      exact absurd hc (by simp)
    · intro hnil
      rw [hnil] at h
      simp at h
  · rw [if_neg h]
    have hnil : lowLevelRoomsAcc low rooms = [] :=
      List.length_eq_zero.mp (Nat.eq_zero_of_not_pos h)
    simp [hnil]

/-- Rounding to two decimals preserves nonnegativity. -/
theorem round2_nonneg (q : ℚ) (h : 0 ≤ q) : 0 ≤ round2 q := by
  unfold round2
  have h1 : (0 : ℤ) ≤ round (q * 100) := by
    rw [round_eq]
    have h2 : (0 : ℚ) ≤ q * 100 + 1 / 2 := by positivity
    calc (0 : ℤ) = ⌊(0 : ℚ)⌋ := by simp
    _ ≤ ⌊q * 100 + 1 / 2⌋ := Int.floor_le_floor h2
  positivity

/- Concrete sample data used by witnesses and counterexamples. -/

/-- Sample tank with a level of 10, below the low threshold. -/
def tDemoLow : Tank :=
  { id := "tank-1", name := "Tank 1", level := 10,
    lastUpdated := "2025-01-01T00:00:00.000Z" }

/-- Sample tank with a level of 80, above the low threshold. -/
def tDemoHigh : Tank :=
  { id := "tank-2", name := "Tank 2", level := 80,
    lastUpdated := "2025-01-01T00:00:00.000Z" }

/-- Sample room holding one qualifying tank. -/
def roomQ : Room := { id := "room-1", tanks := [tDemoLow] }

/-- Sample room holding no qualifying tank. -/
def roomN : Room := { id := "room-2", tanks := [tDemoHigh] }

/-- C1: for every location and reading, the reading is selected as
qualifying exactly when its level is at most the low threshold of 25, so
a reading at exactly 25 is included and one strictly above 25 is
excluded. -/
theorem c1_threshold_selection_inclusive (room : Room) (tank : Tank) :
    tank ∈ lowTanksOf LOW_LEVEL_THRESHOLD room ↔
      tank ∈ room.tanks ∧ tank.level ≤ 25 := by
  simp [lowTanksOf, List.mem_filter, LOW_LEVEL_THRESHOLD]

/-- C2: the deficit recorded for a qualifying reading is the threshold
minus the level, rounded to exactly two decimal places; at level 10 with
threshold 25 the deficit is 15, while level minus threshold would give
minus 15. -/
theorem c2_deficit_threshold_minus_level (t : Tank) :
    (mkTankAlert LOW_LEVEL_THRESHOLD t).deficit =
        round2 (LOW_LEVEL_THRESHOLD - t.level)
    ∧ (∃ n : ℤ, (mkTankAlert LOW_LEVEL_THRESHOLD t).deficit = (n : ℚ) / 100)
    ∧ (t.level = 10 →
        (mkTankAlert LOW_LEVEL_THRESHOLD t).deficit = 15
        ∧ round2 (t.level - LOW_LEVEL_THRESHOLD) = -15) := by
  refine ⟨rfl, ⟨round ((LOW_LEVEL_THRESHOLD - t.level) * 100), rfl⟩, ?_⟩
  intro h
  constructor
  · show round2 (LOW_LEVEL_THRESHOLD - t.level) = 15
    rw [h]
    norm_num [round2, LOW_LEVEL_THRESHOLD, round_eq]
  · rw [h]
    norm_num [round2, LOW_LEVEL_THRESHOLD, round_eq]

/-- Witness for C2 at a concrete tank of level 10. -/
theorem c2_deficit_threshold_minus_level_witness :
    tDemoLow.level = 10
    ∧ (mkTankAlert LOW_LEVEL_THRESHOLD tDemoLow).deficit = 15
    ∧ round2 (tDemoLow.level - LOW_LEVEL_THRESHOLD) = -15 :=
  ⟨rfl, (c2_deficit_threshold_minus_level tDemoLow).2.2 rfl⟩

/-- C3: a location contributes an entry to the alert summary exactly when
it has at least one qualifying reading; the entry records the total
reading count, the qualifying count, and the per-reading detail; and the
two-room snapshot with one qualifying room yields an alert summarizing
only that room. -/
theorem c3_contribution_iff_qualifying (now : String) (rooms : List Room) :
    lowLevelRoomsAcc LOW_LEVEL_THRESHOLD rooms =
        rooms.filterMap
          (fun room =>
            if (lowTanksOf LOW_LEVEL_THRESHOLD room).length > 0 then
              some (mkRoomAlert LOW_LEVEL_THRESHOLD room)
            else none)
    ∧ (∀ room : Room,
        (mkRoomAlert LOW_LEVEL_THRESHOLD room).totalTanks = room.tanks.length
        ∧ (mkRoomAlert LOW_LEVEL_THRESHOLD room).lowLevelTanks =
            (lowTanksOf LOW_LEVEL_THRESHOLD room).length
        ∧ (mkRoomAlert LOW_LEVEL_THRESHOLD room).tanks =
            (lowTanksOf LOW_LEVEL_THRESHOLD room).map
              (mkTankAlert LOW_LEVEL_THRESHOLD))
    ∧ checkTankLevels now [roomQ, roomN] =
        some
          { event := "LOW_LEVEL_ALERT"
            timestamp := now
            details :=
              { timestamp := now
                totalRooms := 2
                totalTanks := 2
                rooms := [mkRoomAlert LOW_LEVEL_THRESHOLD roomQ] }
            mqttTopic := MQTT_ALERT_TOPIC } :=
  ⟨lowLevelRoomsAcc_eq_filterMap LOW_LEVEL_THRESHOLD rooms,
   fun _ => ⟨rfl, rfl, rfl⟩, rfl⟩

/-- C4: the evaluator returns no alert exactly when no room has a
qualifying reading, the handler publishes an alert exactly when some
qualifying reading exists, and the empty snapshot gives no alert. -/
theorem c4_alert_iff_qualifying_exists (now : String) (body : RequestBody)
    (rooms : List Room) (hb : body.rooms = some rooms) :
    (checkTankLevels now rooms = none ↔
        ∀ room ∈ rooms, ∀ tank ∈ room.tanks,
          ¬ tank.level ≤ LOW_LEVEL_THRESHOLD)
    ∧ ((publishHandler now body).alertPublished.isSome = true ↔
        ∃ room ∈ rooms, ∃ tank ∈ room.tanks,
          tank.level ≤ LOW_LEVEL_THRESHOLD)
    ∧ checkTankLevels now [] = none := by
  refine ⟨?_, ?_, rfl⟩
  · unfold checkTankLevels
    rw [checkTankLevelsCfg_eq_none_iff, lowLevelRoomsAcc_eq_nil_iff]
  · unfold publishHandler publishHandlerCfg
    rw [hb]
    dsimp only
    by_cases h : (lowLevelDataRooms LOW_LEVEL_THRESHOLD rooms).length > 0
    · rw [if_pos h, ← Option.ne_none_iff_isSome, Ne,
        checkTankLevelsCfg_eq_none_iff, lowLevelRoomsAcc_eq_nil_iff]
      push_neg
      rfl
    · rw [if_neg h]
      simp only [Option.isSome_none, Bool.false_eq_true, false_iff]
      exact fun hex =>
        h ((lowLevelDataRooms_length_pos_iff LOW_LEVEL_THRESHOLD rooms).mpr hex)

/-- Witness for C4 at a concrete body whose single room has no qualifying
tank. -/
theorem c4_alert_iff_qualifying_exists_witness :
    ({ timestamp := "2025-01-01T00:00:00.000Z", rooms := some [roomN] } :
        RequestBody).rooms = some [roomN]
    ∧ ((checkTankLevels "t1" [roomN] = none ↔
          ∀ room ∈ [roomN], ∀ tank ∈ room.tanks,
            ¬ tank.level ≤ LOW_LEVEL_THRESHOLD)
       ∧ ((publishHandler "t1"
              { timestamp := "2025-01-01T00:00:00.000Z",
                rooms := some [roomN] }).alertPublished.isSome = true ↔
            ∃ room ∈ [roomN], ∃ tank ∈ room.tanks,
              tank.level ≤ LOW_LEVEL_THRESHOLD)
       ∧ checkTankLevels "t1" [] = none) :=
  ⟨rfl, c4_alert_iff_qualifying_exists "t1"
    { timestamp := "2025-01-01T00:00:00.000Z", rooms := some [roomN] }
    [roomN] rfl⟩

/-- C5 counterexample: the evaluator embeds the current wall-clock time in
the alert it emits, so two runs on the identical snapshot at different
clock readings give different alert output; the claimed purity fails
because the function also reads the clock and performs publish and log
effects. -/
theorem c5_purity_counterexample :
    checkTankLevels "2025-01-01T00:00:00.000Z" [roomQ] ≠
      checkTankLevels "2025-01-01T00:00:01.000Z" [roomQ] := by
  intro h
  have h2 := congrArg (fun o => o.elim "" AlertData.timestamp) h
  dsimp only at h2
  have e1 : (checkTankLevels "2025-01-01T00:00:00.000Z" [roomQ]).elim ""
      AlertData.timestamp = "2025-01-01T00:00:00.000Z" := rfl
  have e2 : (checkTankLevels "2025-01-01T00:00:01.000Z" [roomQ]).elim ""
      AlertData.timestamp = "2025-01-01T00:00:01.000Z" := rfl
  rw [e1, e2] at h2
  exact absurd h2 (by decide)

/-- C5 amended: with the wall-clock reading passed as an explicit input,
the evaluator is deterministic, and every part of the alert other than
the embedded timestamps depends only on the snapshot: evaluations at any
two clock readings agree after the timestamp fields are erased. -/
theorem c5_determinism_modulo_time (now now' : String) (rooms : List Room) :
    (checkTankLevels now rooms).map eraseTimes =
      (checkTankLevels now' rooms).map eraseTimes := by
  unfold checkTankLevels checkTankLevelsCfg
  dsimp only
  by_cases h : (lowLevelRoomsAcc LOW_LEVEL_THRESHOLD rooms).length > 0
  · rw [if_pos h, if_pos h]
    simp [eraseTimes]
  · rw [if_neg h, if_neg h]

/-- C6: for a structurally valid snapshot, the payload published on the
raw channel is the input body itself, unmodified, and the handler
answers success. -/
theorem c6_raw_payload_unmodified (now : String) (body : RequestBody)
    (rooms : List Room) (hb : body.rooms = some rooms) :
    (publishHandler now body).rawPublished = some body
    ∧ (publishHandler now body).status = 200 := by
  unfold publishHandler publishHandlerCfg
  rw [hb]
  exact ⟨rfl, rfl⟩

/-- Witness for C6 at a concrete valid body. -/
theorem c6_raw_payload_unmodified_witness :
    ({ timestamp := "t0", rooms := some [roomQ, roomN] } :
        RequestBody).rooms = some [roomQ, roomN]
    ∧ (publishHandler "t1"
        { timestamp := "t0", rooms := some [roomQ, roomN] }).rawPublished =
        some { timestamp := "t0", rooms := some [roomQ, roomN] }
    ∧ (publishHandler "t1"
        { timestamp := "t0", rooms := some [roomQ, roomN] }).status = 200 :=
  ⟨rfl, c6_raw_payload_unmodified "t1"
    { timestamp := "t0", rooms := some [roomQ, roomN] } [roomQ, roomN] rfl⟩

/-- C7: for a body missing the rooms collection the handler returns the
generic 500 failure response, publishes nothing on either channel, and
returns normally rather than crashing, since the thrown access error is
caught. -/
theorem c7_invalid_snapshot_generic_failure (now ts : String) :
    publishHandler now { timestamp := ts, rooms := none } =
      { status := 500
        responseBody := "Failed to publish data"
        rawPublished := none
        alertPublished := none } := rfl

/-- C8: handling a message on the alerts channel is total, so a stream of
messages is consumed in full whatever its content, and any message the
parser rejects is logged raw and skipped rather than processed. -/
theorem c8_malformed_message_logged_skipped
    (parse : String → Option AlertData) (msgs : List String) (msg : String) :
    (consumeAll parse msgs).length = msgs.length
    ∧ (parse msg = none →
        onMessage parse msg = ConsumerOutcome.parseFailureLogged msg) := by
  refine ⟨by simp [consumeAll], fun h => ?_⟩
  simp [onMessage, h]

/-- Witness for C8 with a parser rejecting a concrete malformed message. -/
theorem c8_malformed_message_logged_skipped_witness :
    ((fun _ => (none : Option AlertData)) "not structured data" =
        (none : Option AlertData))
    ∧ (consumeAll (fun _ => none) ["not structured data", "x"]).length =
        (["not structured data", "x"] : List String).length
    ∧ onMessage (fun _ => none) "not structured data" =
        ConsumerOutcome.parseFailureLogged "not structured data" :=
  ⟨rfl,
   (c8_malformed_message_logged_skipped (fun _ => none)
      ["not structured data", "x"] "not structured data").1,
   (c8_malformed_message_logged_skipped (fun _ => none)
      ["not structured data", "x"] "not structured data").2 rfl⟩

/-- C9: the high threshold constant is defined with value 90 yet no
observable output of the evaluator or of the publish handler depends on
it: any two values for the high threshold give identical results on every
input. -/
theorem c9_high_threshold_dead_config (h1 h2 : ℚ) (now : String)
    (body : RequestBody) (rooms : List Room) :
    HIGH_LEVEL_THRESHOLD = 90
    ∧ publishHandlerCfg LOW_LEVEL_THRESHOLD h1 now body =
        publishHandlerCfg LOW_LEVEL_THRESHOLD h2 now body
    ∧ checkTankLevelsCfg LOW_LEVEL_THRESHOLD h1 now rooms =
        checkTankLevelsCfg LOW_LEVEL_THRESHOLD h2 now rooms :=
  ⟨rfl, rfl, rfl⟩

/-- C10: every room entry of a produced alert has its qualifying count
equal to the length of its tank list, at least one and at most the total
tank count, and every listed tank has level at most 25, threshold 25 and
nonnegative deficit. -/
theorem c10_alert_payload_invariants (now : String) (rooms : List Room)
    (a : AlertData) (ha : checkTankLevels now rooms = some a) :
    ∀ ra ∈ a.details.rooms,
      ra.lowLevelTanks = ra.tanks.length
      ∧ 1 ≤ ra.lowLevelTanks
      ∧ ra.lowLevelTanks ≤ ra.totalTanks
      ∧ ∀ ta ∈ ra.tanks,
          ta.level ≤ 25 ∧ ta.threshold = 25 ∧ 0 ≤ ta.deficit := by
  have hrooms : a.details.rooms = lowLevelRoomsAcc LOW_LEVEL_THRESHOLD rooms :=
    details_rooms_of_eq_some LOW_LEVEL_THRESHOLD HIGH_LEVEL_THRESHOLD now
      rooms a ha
  rw [hrooms, lowLevelRoomsAcc_eq_filterMap]
  intro ra hra
  rw [List.mem_filterMap] at hra
  obtain ⟨room, hroom, heq⟩ := hra
  by_cases hc : (lowTanksOf LOW_LEVEL_THRESHOLD room).length > 0
  · rw [if_pos hc] at heq
    injection heq with heq
    subst heq
    refine ⟨by simp [mkRoomAlert], hc, ?_, ?_⟩
    · show (lowTanksOf LOW_LEVEL_THRESHOLD room).length ≤ room.tanks.length
      exact List.length_filter_le _ _
    · intro ta hta
      rw [show (mkRoomAlert LOW_LEVEL_THRESHOLD room).tanks =
            (lowTanksOf LOW_LEVEL_THRESHOLD room).map
              (mkTankAlert LOW_LEVEL_THRESHOLD) from rfl,
          List.mem_map] at hta
      obtain ⟨t, ht, hteq⟩ := hta
      have hlev : t.level ≤ 25 := by
        have := (List.mem_filter.mp ht).2
        simpa [LOW_LEVEL_THRESHOLD] using this
      subst hteq
      refine ⟨hlev, rfl, ?_⟩
      show (0 : ℚ) ≤ round2 (LOW_LEVEL_THRESHOLD - t.level)
      exact round2_nonneg _ (by simp [LOW_LEVEL_THRESHOLD, sub_nonneg, hlev])
  · rw [if_neg hc] at heq
    exact absurd heq (by simp)

/-- Expected alert for the witness snapshot of C10. -/
def demoAlert : AlertData :=
  { event := "LOW_LEVEL_ALERT"
    timestamp := "t0"
    details :=
      { timestamp := "t0"
        totalRooms := 2
        totalTanks := 2
        rooms := [mkRoomAlert LOW_LEVEL_THRESHOLD roomQ] }
    mqttTopic := MQTT_ALERT_TOPIC }

/-- Witness for C10 at a concrete snapshot with one qualifying room. -/
theorem c10_alert_payload_invariants_witness :
    checkTankLevels "t0" [roomQ, roomN] = some demoAlert
    ∧ ∀ ra ∈ demoAlert.details.rooms,
        ra.lowLevelTanks = ra.tanks.length
        ∧ 1 ≤ ra.lowLevelTanks
        ∧ ra.lowLevelTanks ≤ ra.totalTanks
        ∧ ∀ ta ∈ ra.tanks,
            ta.level ≤ 25 ∧ ta.threshold = 25 ∧ 0 ≤ ta.deficit :=
  ⟨rfl, c10_alert_payload_invariants "t0" [roomQ, roomN] demoAlert rfl⟩

end Scada
